import Mathlib

/-!
Shallow embedding of the control core of the `holsatus-flight` repository:
the motor-governor arming state machine (`src/t_motor_governor.rs`) and the
cascaded attitude controller (`src/task_attitude_controller.rs`).

Machine integers (`u16` bitmasks, speed words) are embedded as `ℕ` / `ℤ`;
no arithmetic in the modelled code can overflow its machine width, so no
explicit reduction modulo `2^w` is required.  The `f32` control arithmetic
of the attitude controller is idealised as exact arithmetic over a linear
ordered field (instantiated at `ℚ` for executable facts and at `ℝ` where
the constant `π` from the source appears).
-/

/- ================================================================
   Motor governor (`src/t_motor_governor.rs`)
   ================================================================ -/

/-- The `ArmBlocker` bitflag of the source is a `u16` bitmask; we embed it
as a natural number, with the flag constants below. -/
abbrev ArmBlocker := Nat

/-- Bit 0 - the gyroscope is not calibrated. -/
def ArmBlocker.NO_GYR_CALIB : ArmBlocker := 1

/-- Bit 1 - the accelerometer is not calibrated. -/
def ArmBlocker.NO_ACC_CALIB : ArmBlocker := 2

/-- Bit 2 - the vehicle is undergoing gyroscope calibration. -/
def ArmBlocker.GYR_CALIBIN : ArmBlocker := 4

/-- Bit 3 - the vehicle is undergoing accelerometer calibration. -/
def ArmBlocker.ACC_CALIBIN : ArmBlocker := 8

/-- Bit 4 - no gyroscope data available. -/
def ArmBlocker.NO_GYR_DATA : ArmBlocker := 16

/-- Bit 5 - no accelerometer data available. -/
def ArmBlocker.NO_ACC_DATA : ArmBlocker := 32

/-- Bit 6 - commanded throttle too high. -/
def ArmBlocker.HIGH_THROTTLE_CMD : ArmBlocker := 64

/-- Bit 7 - commanded attitude too high. -/
def ArmBlocker.HIGH_ATTITUDE_CMD : ArmBlocker := 128

/-- Bit 8 - measured attitude abnormally high. -/
def ArmBlocker.HIGH_ATTITUDE : ArmBlocker := 256

/-- Bit 9 - armed too soon after boot. -/
def ArmBlocker.BOOT_GRACE : ArmBlocker := 512

/-- Bit 10 - system load too high. -/
def ArmBlocker.SYSTEM_LOAD : ArmBlocker := 1024

/-- Bit 11 - the receiver is in failsafe mode. -/
def ArmBlocker.RX_FAILSAFE : ArmBlocker := 2048

/-- Bit 12 - the vehicle is commanded to be disarmed; the only flag a user
can set directly, and the only one that disarms at any time. -/
def ArmBlocker.CMD_DISARM : ArmBlocker := 4096

/-- `bitflags` `is_empty`: the mask has no bit set. -/
def ArmBlocker.is_empty (b : ArmBlocker) : Bool := b == 0

/-- `bitflags` `contains`: every bit of `other` is set in `self`. -/
def ArmBlocker.contains (self other : ArmBlocker) : Bool :=
  self &&& other == other

/-- The four-motor speed message carried on `msg::MOTOR_SPEEDS`
(a 4-element signed speed vector). -/
structure MotorSpeeds where
  m0 : Int
  m1 : Int
  m2 : Int
  m3 : Int
deriving DecidableEq, Repr

/-- The all-zero speed vector `[0,0,0,0]` matched by the first armed-loop arm. -/
def MotorSpeeds.zero : MotorSpeeds := ⟨0, 0, 0, 0⟩

/-- Per-motor reverse-direction configuration (`reverse_motor: [bool; 4]`). -/
structure RevFlags where
  r0 : Bool
  r1 : Bool
  r2 : Bool
  r3 : Bool
deriving DecidableEq, Repr

/-- A command issued to the DShot motor driver (`out_dshot_pio`). -/
inductive DriverCmd where
  | throttleMinimum : DriverCmd
  | throttleClamp : MotorSpeeds → DriverCmd
  | reverse : RevFlags → DriverCmd
deriving DecidableEq, Repr

/-- `DisarmReason` of the source. -/
inductive DisarmReason where
  | NotInitialized : DisarmReason
  | Fault : DisarmReason
  | Commanded : DisarmReason
  | Timeout : DisarmReason
deriving DecidableEq, Repr

/-- `ArmedState` of the source. -/
inductive ArmedState where
  | Idle : ArmedState
  | Running : MotorSpeeds → ArmedState
deriving DecidableEq, Repr

/-- `MotorState` of the source, published on `msg::MOTOR_STATE`. -/
inductive MotorState where
  | Disarmed : DisarmReason → MotorState
  | Arming : MotorState
  | Armed : ArmedState → MotorState
deriving DecidableEq, Repr

/-- One outcome of `with_timeout(timeout, select(speed.changed(), blocker.changed()))`
inside the armed loop: a fresh speed vector (`Ok(Either::First _)`), a fresh
blocker mask (`Ok(Either::Second _)`), or timeout expiry (`Err(_)`). -/
inductive GovEvent where
  | speed : MotorSpeeds → GovEvent
  | blocker : ArmBlocker → GovEvent
  | timeout : GovEvent
deriving DecidableEq, Repr

/-- The effect of one armed-loop iteration: the driver commands issued, the
motor state published (if any), and whether `break 'armed` was executed. -/
structure StepResult where
  cmds : List DriverCmd
  pub : Option MotorState
  exits : Bool
deriving DecidableEq, Repr

/-- One iteration of the `'armed` loop (source lines 111-151), as a function
of the raced event.  The match arms appear in source order: all-zero speed,
any other speed, blocker containing `CMD_DISARM`, timeout, and the silent
`_ => {}` arm for a blocker update without the disarm flag. -/
def armedStep (e : GovEvent) : StepResult :=
  match e with
  | GovEvent.speed s =>
      if s = MotorSpeeds.zero then
        ⟨[DriverCmd.throttleMinimum], some (MotorState.Armed ArmedState.Idle), false⟩
      else
        ⟨[DriverCmd.throttleClamp s], some (MotorState.Armed (ArmedState.Running s)), false⟩
  | GovEvent.blocker f =>
      if ArmBlocker.contains f ArmBlocker.CMD_DISARM then
        ⟨[DriverCmd.throttleMinimum], some (MotorState.Disarmed DisarmReason.Commanded), true⟩
      else
        ⟨[], none, false⟩
  | GovEvent.timeout =>
      ⟨[DriverCmd.throttleMinimum], some (MotorState.Disarmed DisarmReason.Timeout), true⟩

/-- Run the `'armed` loop over a finite trace of raced events, collecting the
driver commands and published states until the loop breaks or the trace ends. -/
def armedRun : List GovEvent → List DriverCmd × List MotorState
  | [] => ([], [])
  | e :: es =>
      let r := armedStep e
      if r.exits then (r.cmds, r.pub.toList)
      else
        let rest := armedRun es
        (r.cmds ++ rest.1, r.pub.toList ++ rest.2)

/-- The predicate of the outer wait `rcv_arming_prevention.changed_and(|flag| flag.is_empty())`:
a blocker value lets the governor proceed to `Arming` exactly when it is empty. -/
def armGateAccepts (f : ArmBlocker) : Bool := ArmBlocker.is_empty f

/-- One `'infinite`-loop iteration's published states after the ramp: the
governor publishes `Arming`, runs the ramp, re-reads the blocker mask
(`postRampFlag`, from `rcv_arming_prevention.get().await`), and either aborts
with `Disarmed(Fault)` (`continue 'infinite`) or enters the armed loop over
the given event trace. -/
def governorAttempt (postRampFlag : ArmBlocker) (events : List GovEvent) : List MotorState :=
  MotorState.Arming ::
    (if ArmBlocker.is_empty postRampFlag = false then
      [MotorState.Disarmed DisarmReason.Fault]
    else
      (armedRun events).2)

/-- Inputs of one outer-loop iteration: the blocker mask observed right after
the ramp and the armed-loop event trace. -/
structure Attempt where
  postRampFlag : ArmBlocker
  events : List GovEvent

/-- Published states of a finite sequence of outer-loop iterations; each
iteration's abort paths `continue` back here, so later attempts still run. -/
def govRun : List Attempt → List MotorState
  | [] => []
  | a :: rest => governorAttempt a.postRampFlag a.events ++ govRun rest

/- ================================================================
   Arming ramp (source lines 88-101)
   ================================================================ -/

/-- One primitive action of the arming ramp: a timer wait (milliseconds) or a
driver command. -/
inductive RampAction where
  | wait : Nat → RampAction
  | cmd : DriverCmd → RampAction
deriving DecidableEq, Repr

/-- The `for _i in 0..n { out_dshot_pio.throttle_minimum(); Timer::after_millis(50) }`
loop, unrolled. -/
def armLoop : Nat → List RampAction
  | 0 => []
  | n + 1 =>
      RampAction.cmd DriverCmd.throttleMinimum :: RampAction.wait 50 :: armLoop n

/-- The `for _i in 0..n { out_dshot_pio.reverse(reverse_motor); Timer::after_millis(50) }`
loop, unrolled. -/
def dirLoop (rm : RevFlags) : Nat → List RampAction
  | 0 => []
  | n + 1 =>
      RampAction.cmd (DriverCmd.reverse rm) :: RampAction.wait 50 :: dirLoop rm n

/-- The full arming ramp between publishing `Arming` and the post-ramp blocker
check: a 500 ms wait, 50 minimum-throttle iterations, then 10 direction
iterations.  Its only parameter is the start-time configuration
`reverse_motor`; no channel is read during the ramp. -/
def armingRamp (rm : RevFlags) : List RampAction :=
  RampAction.wait 500 :: (armLoop 50 ++ dirLoop rm 10)

/-- Total wait time (ms) of a ramp action list. -/
def totalWait : List RampAction → Nat
  | [] => 0
  | RampAction.wait n :: rest => n + totalWait rest
  | RampAction.cmd _ :: rest => totalWait rest

/-- Is the action a driver command? -/
def RampAction.isCmd : RampAction → Bool
  | RampAction.cmd _ => true
  | RampAction.wait _ => false

/-- Is the action a wait? -/
def RampAction.isWait : RampAction → Bool
  | RampAction.wait _ => true
  | RampAction.cmd _ => false

/-- Erase the reverse-flag payload of a ramp action, leaving its shape. -/
def rampShape : RampAction → RampAction
  | RampAction.cmd (DriverCmd.reverse _) => RampAction.cmd (DriverCmd.reverse ⟨false, false, false, false⟩)
  | a => a

/- ================================================================
   Attitude controller (`src/task_attitude_controller.rs`)
   ================================================================ -/

section AttitudeController

variable {K : Type} [LinearOrderedField K]

/-- A 3-vector (`nalgebra::Vector3`), with `x = roll`, `y = pitch`, `z = yaw`
as used by the controller. -/
structure V3 (K : Type) where
  x : K
  y : K
  z : K
deriving DecidableEq, Repr

instance : Sub (V3 K) := ⟨fun a b => ⟨a.x - b.x, a.y - b.y, a.z - b.z⟩⟩

/-- Componentwise subtraction of 3-vectors, unfolded. -/
lemma V3.sub_def (a b : V3 K) : a - b = ⟨a.x - b.x, a.y - b.y, a.z - b.z⟩ := rfl

/-- `StabilizationMode` of the source: a tagged 3-vector setpoint. -/
inductive StabilizationMode (K : Type) where
  | Horizon : V3 K → StabilizationMode K
  | Acro : V3 K → StabilizationMode K
deriving DecidableEq, Repr

/-- Discriminant of a mode (source `variant`): `Horizon ↦ 0`, `Acro ↦ 1`. -/
def StabilizationMode.variant : StabilizationMode K → Nat
  | StabilizationMode.Horizon _ => 0
  | StabilizationMode.Acro _ => 1

/-- Source `same_variant_as`: discriminant-only comparison of two modes. -/
def StabilizationMode.same_variant_as (a b : StabilizationMode K) : Bool :=
  a.variant == b.variant

/-- Modelled from the spec: the external crate `pid_controller_rs::Pid` is not
under `src/`.  Per the spec, a PID instance carries per-axis gains, the
accumulated integral term, an optional derivative low-pass filter state, and
optional circular domain bounds; `output = P·error + I·∫error +
D·filtered(d(error)/dt)`.  `cfgFlag` records the fourth `Pid::new` argument,
whose role the spec does not describe; it is inert here. -/
structure Pid (K : Type) where
  kp : K
  ki : K
  kd : K
  cfgFlag : Bool
  dt : K
  integral : K
  prevError : K
  filterState : K
  lpFilter : Option K
  circular : Option (K × K)
deriving DecidableEq, Repr

/-- Modelled from the spec: `Pid::new(kp, ki, kd, flag, dt)` starts with zero
accumulated state and no filter or circular domain configured. -/
def Pid.new (kp ki kd : K) (cfgFlag : Bool) (dt : K) : Pid K :=
  ⟨kp, ki, kd, cfgFlag, dt, 0, 0, 0, none, none⟩

/-- Modelled from the spec: `set_lp_filter` configures the derivative low-pass
filter time constant. -/
def Pid.set_lp_filter (p : Pid K) (tau : K) : Pid K :=
  { p with lpFilter := some tau }

/-- Modelled from the spec: `set_circular(lo, hi)` configures the wraparound
error domain. -/
def Pid.set_circular (p : Pid K) (lo hi : K) : Pid K :=
  { p with circular := some (lo, hi) }

/-- Modelled from the spec: wrap a raw error into the circular domain
`[lo, hi]`, giving the signed shortest angular distance when the setpoint and
measurement both lie within one period. -/
def wrapError (lo hi e : K) : K :=
  if hi < e then e - (hi - lo)
  else if e < lo then e + (hi - lo)
  else e

/-- The error a PID instance actually uses: wrapped into the circular domain
when one is configured, the raw difference otherwise. -/
def Pid.wrapInput (p : Pid K) (e : K) : K :=
  match p.circular with
  | some (lo, hi) => wrapError lo hi e
  | none => e

/-- Modelled from the spec: `Pid::update` consumes the raw error, wraps it
when a circular domain is configured, accumulates the integral, low-pass
filters the derivative when a filter is configured, and returns
`P·error + I·∫error + D·filtered(d(error)/dt)` with the updated state. -/
def Pid.update (p : Pid K) (e : K) : K × Pid K :=
  let err := p.wrapInput e
  let integral2 := p.integral + err * p.dt
  let deriv := (err - p.prevError) / p.dt
  let filtered :=
    match p.lpFilter with
    | some tau => p.filterState + (p.dt / (tau + p.dt)) * (deriv - p.filterState)
    | none => deriv
  (p.kp * err + p.ki * integral2 + p.kd * filtered,
   { p with integral := integral2, prevError := err, filterState := filtered })

/-- Modelled from the spec: `reset_integral` zeroes the accumulated integral
term of one PID instance. -/
def Pid.reset_integral (p : Pid K) : Pid K :=
  { p with integral := 0 }

/-- The six PID instances owned by the attitude controller
(source lines 49-54). -/
structure AttPids (K : Type) where
  pitchOuter : Pid K
  pitchInner : Pid K
  rollOuter : Pid K
  rollInner : Pid K
  yawOuter : Pid K
  yawInner : Pid K
deriving DecidableEq, Repr

/-- The initial controllers of source lines 49-54, with the literal gains and
filter constants; `piv` stands for `core::f32::consts::PI` and `dtv` for
`cfg::ATTITUDE_LOOP_TIME_SECS` (the `cfg` module is not under `src/`). -/
def initPids (piv dtv : K) : AttPids K :=
  { pitchOuter := Pid.new 10 (1/10) 0 true dtv
  , pitchInner := (Pid.new 40 1 (1/100) true dtv).set_lp_filter (1/100)
  , rollOuter := Pid.new 10 (1/10) 0 true dtv
  , rollInner := (Pid.new 30 1 (1/100) true dtv).set_lp_filter (1/100)
  , yawOuter := (Pid.new 8 (1/1000) 0 true dtv).set_circular (-piv) piv
  , yawInner := ((Pid.new 60 1 0 true dtv).set_circular (-piv) piv).set_lp_filter (1/100) }

/-- The yaw outer controller as configured at source line 53. -/
def pidYawOuterInit (piv dtv : K) : Pid K := (initPids piv dtv).yawOuter

/-- The `if let Some(true) = reset { ... }` block of source lines 63-67:
reset the integral of all six controllers. -/
def applyReset (ps : AttPids K) : AttPids K :=
  { pitchOuter := ps.pitchOuter.reset_integral
  , pitchInner := ps.pitchInner.reset_integral
  , rollOuter := ps.rollOuter.reset_integral
  , rollInner := ps.rollInner.reset_integral
  , yawOuter := ps.yawOuter.reset_integral
  , yawInner := ps.yawInner.reset_integral }

/-- Modelled from the spec: `crate::channels::update_from_channel` is not
under `src/`; per the spec it refreshes the current stabilization mode from
its channel if a new one is available, and otherwise leaves it unchanged. -/
def updateFromChannel (msg : Option (StabilizationMode K)) (cur : StabilizationMode K) :
    StabilizationMode K :=
  match msg with
  | some m => m
  | none => cur

/-- The actuation computation of source lines 73-103: in Horizon mode the
outer loop turns the angle error into a rate setpoint and the inner loop turns
the rate error into the actuation; in Acro mode the inner loop acts directly
on the rate error and the outer controllers are not touched. -/
def computeActuation (mode : StabilizationMode K) (ps : AttPids K)
    (attAngle attRate : V3 K) : V3 K × AttPids K :=
  match mode with
  | StabilizationMode.Horizon reference =>
      let outerError := reference - attAngle
      let ro := ps.rollOuter.update outerError.x
      let po := ps.pitchOuter.update outerError.y
      let yo := ps.yawOuter.update outerError.z
      let innerReference : V3 K := ⟨ro.1, po.1, yo.1⟩
      let innerError := innerReference - attRate
      let ri := ps.rollInner.update innerError.x
      let pi2 := ps.pitchInner.update innerError.y
      let yi := ps.yawInner.update innerError.z
      (⟨ri.1, pi2.1, yi.1⟩,
       { pitchOuter := po.2, pitchInner := pi2.2, rollOuter := ro.2
       , rollInner := ri.2, yawOuter := yo.2, yawInner := yi.2 })
  | StabilizationMode.Acro reference =>
      let err := reference - attRate
      let ri := ps.rollInner.update err.x
      let pi2 := ps.pitchInner.update err.y
      let yi := ps.yawInner.update err.z
      (⟨ri.1, pi2.1, yi.1⟩,
       { ps with rollInner := ri.2, pitchInner := pi2.2, yawInner := yi.2 })

/-- The loop-carried state of the attitude controller: the current
stabilization mode and the six PID instances. -/
structure AttState (K : Type) where
  mode : StabilizationMode K
  pids : AttPids K
deriving DecidableEq, Repr

/-- One iteration of the attitude-controller loop (source lines 57-103):
refresh the mode from its channel, apply a pending integrator reset, then
compute and publish the actuation from the new measurement pair. -/
def attitudeCycle (st : AttState K) (modeMsg : Option (StabilizationMode K))
    (resetMsg : Option Bool) (attAngle attRate : V3 K) : AttState K × V3 K :=
  let mode := updateFromChannel modeMsg st.mode
  let ps :=
    match resetMsg with
    | some true => applyReset st.pids
    | _ => st.pids
  let out := computeActuation mode ps attAngle attRate
  (⟨mode, out.2⟩, out.1)

end AttitudeController

/- ================================================================
   Claims about the motor governor
   ================================================================ -/

/-- Claim C1: in every armed-loop iteration, a blocker-mask update containing
`CMD_DISARM` makes the governor command minimum throttle, publish
`Disarmed(Commanded)`, and exit the armed loop, regardless of any other
blocker bits set in the same mask. -/
theorem cmd_disarm_in_armed_loop_disarms (f : ArmBlocker)
    (h : ArmBlocker.contains f ArmBlocker.CMD_DISARM = true) :
    armedStep (GovEvent.blocker f) =
      ⟨[DriverCmd.throttleMinimum], some (MotorState.Disarmed DisarmReason.Commanded), true⟩
    ∧ ∀ es, armedRun (GovEvent.blocker f :: es) =
        ([DriverCmd.throttleMinimum], [MotorState.Disarmed DisarmReason.Commanded]) := by
  constructor
  · simp [armedStep, h]
  · intro es
    simp [armedRun, armedStep, h]

/-- Claim C1 witness: a mask with `CMD_DISARM` and `RX_FAILSAFE` both set
still disarms as commanded. -/
theorem cmd_disarm_in_armed_loop_disarms_witness :
    ArmBlocker.contains (ArmBlocker.CMD_DISARM ||| ArmBlocker.RX_FAILSAFE)
      ArmBlocker.CMD_DISARM = true
    ∧ armedStep (GovEvent.blocker (ArmBlocker.CMD_DISARM ||| ArmBlocker.RX_FAILSAFE)) =
      ⟨[DriverCmd.throttleMinimum], some (MotorState.Disarmed DisarmReason.Commanded), true⟩ :=
  ⟨by decide,
   (cmd_disarm_in_armed_loop_disarms (ArmBlocker.CMD_DISARM ||| ArmBlocker.RX_FAILSAFE)
     (by decide)).1⟩

/-- Claim C2: in every armed-loop iteration, a blocker-mask update without
`CMD_DISARM` causes no transition — no driver command, no published state,
no exit — while entry to `Arming` is gated on a fully empty mask. -/
theorem non_disarm_blocker_no_transition (f : ArmBlocker)
    (h : ArmBlocker.contains f ArmBlocker.CMD_DISARM = false) :
    armedStep (GovEvent.blocker f) = ⟨[], none, false⟩
    ∧ (∀ es, armedRun (GovEvent.blocker f :: es) = armedRun es)
    ∧ (∀ g : ArmBlocker, armGateAccepts g = true ↔ g = 0) := by
  refine ⟨by simp [armedStep, h], ?_, ?_⟩
  · intro es
    simp [armedRun, armedStep, h]
  · intro g
    simp [armGateAccepts, ArmBlocker.is_empty]

/-- Claim C2 witness: a receiver-failsafe-only mask causes no transition while
armed, although the entry gate rejects it. -/
theorem non_disarm_blocker_no_transition_witness :
    ArmBlocker.contains ArmBlocker.RX_FAILSAFE ArmBlocker.CMD_DISARM = false
    ∧ armedStep (GovEvent.blocker ArmBlocker.RX_FAILSAFE) = ⟨[], none, false⟩
    ∧ armGateAccepts 0 = true :=
  ⟨by decide,
   (non_disarm_blocker_no_transition ArmBlocker.RX_FAILSAFE (by decide)).1,
   ((non_disarm_blocker_no_transition ArmBlocker.RX_FAILSAFE (by decide)).2.2 0).mpr rfl⟩

/-- Claim C3: whenever the blocker mask re-read immediately after the ramp is
non-empty, the attempt publishes exactly `Arming` then `Disarmed(Fault)`,
never an `Armed` state, and control returns to the outer wait loop where
later attempts still run. -/
theorem post_ramp_blocker_aborts_to_fault (g : ArmBlocker) (events : List GovEvent)
    (rest : List Attempt) (h : ArmBlocker.is_empty g = false) :
    governorAttempt g events =
      [MotorState.Arming, MotorState.Disarmed DisarmReason.Fault]
    ∧ (∀ s ∈ governorAttempt g events, ∀ a, s ≠ MotorState.Armed a)
    ∧ govRun (⟨g, events⟩ :: rest) =
        [MotorState.Arming, MotorState.Disarmed DisarmReason.Fault] ++ govRun rest := by
  have h1 : governorAttempt g events =
      [MotorState.Arming, MotorState.Disarmed DisarmReason.Fault] := by
    simp [governorAttempt, h]
  refine ⟨h1, ?_, ?_⟩
  · rw [h1]
    intro s hs a
    simp only [List.mem_cons, List.not_mem_nil, or_false] at hs
    rcases hs with rfl | rfl <;> simp
  · simp [govRun, h1]

/-- Claim C3 witness: a post-ramp mask with only the boot-grace bit set aborts
the attempt to `Disarmed(Fault)`. -/
theorem post_ramp_blocker_aborts_to_fault_witness :
    ArmBlocker.is_empty ArmBlocker.BOOT_GRACE = false
    ∧ governorAttempt ArmBlocker.BOOT_GRACE [] =
      [MotorState.Arming, MotorState.Disarmed DisarmReason.Fault] :=
  ⟨by decide,
   (post_ramp_blocker_aborts_to_fault ArmBlocker.BOOT_GRACE [] [] (by decide)).1⟩

/-- Claim C4: when the armed-loop race expires without a speed or blocker
update, the governor commands minimum throttle, publishes
`Disarmed(Timeout)`, and exits the armed loop; the outer loop then continues
with later attempts, so timeout expiry is a normal disarm path rather than a
process-terminating error. -/
theorem armed_loop_timeout_disarms :
    armedStep GovEvent.timeout =
      ⟨[DriverCmd.throttleMinimum], some (MotorState.Disarmed DisarmReason.Timeout), true⟩
    ∧ (∀ es, armedRun (GovEvent.timeout :: es) =
        ([DriverCmd.throttleMinimum], [MotorState.Disarmed DisarmReason.Timeout]))
    ∧ (∀ rest, govRun (⟨0, [GovEvent.timeout]⟩ :: rest) =
        [MotorState.Arming, MotorState.Disarmed DisarmReason.Timeout] ++ govRun rest) := by
  refine ⟨rfl, ?_, ?_⟩
  · intro es
    simp [armedRun, armedStep]
  · intro rest
    simp [govRun, governorAttempt, armedRun, armedStep, ArmBlocker.is_empty]

/-- Claim C5: while armed, an all-zero speed update commands minimum throttle
and publishes `Armed(Idle)`; any other speed vector is forwarded to the
driver through the clamping call and published as `Armed(Running(speeds))`
carrying that vector; in both cases the armed loop continues. -/
theorem speed_update_idle_or_running (s : MotorSpeeds) :
    (s = MotorSpeeds.zero →
      armedStep (GovEvent.speed s) =
        ⟨[DriverCmd.throttleMinimum], some (MotorState.Armed ArmedState.Idle), false⟩)
    ∧ (s ≠ MotorSpeeds.zero →
      armedStep (GovEvent.speed s) =
        ⟨[DriverCmd.throttleClamp s], some (MotorState.Armed (ArmedState.Running s)), false⟩)
    ∧ (∀ es, armedRun (GovEvent.speed s :: es) =
        ((armedStep (GovEvent.speed s)).cmds ++ (armedRun es).1,
         (armedStep (GovEvent.speed s)).pub.toList ++ (armedRun es).2)) := by
  refine ⟨?_, ?_, ?_⟩
  · intro h
    simp [armedStep, h]
  · intro h
    simp [armedStep, h]
  · intro es
    by_cases h : s = MotorSpeeds.zero <;> simp [armedRun, armedStep, h]

/-- Claim C5 witness: the zero vector yields `Armed(Idle)`, and a concrete
non-zero vector yields `Armed(Running)` of the same vector. -/
theorem speed_update_idle_or_running_witness :
    armedStep (GovEvent.speed MotorSpeeds.zero) =
      ⟨[DriverCmd.throttleMinimum], some (MotorState.Armed ArmedState.Idle), false⟩
    ∧ armedStep (GovEvent.speed ⟨100, 200, 300, 400⟩) =
      ⟨[DriverCmd.throttleClamp ⟨100, 200, 300, 400⟩],
        some (MotorState.Armed (ArmedState.Running ⟨100, 200, 300, 400⟩)), false⟩ :=
  ⟨(speed_update_idle_or_running MotorSpeeds.zero).1 rfl,
   (speed_update_idle_or_running ⟨100, 200, 300, 400⟩).2.1 (by decide)⟩

/- Helper lemmas for the arming-ramp claim. -/

/-- The minimum-throttle loop is `n` copies of a command followed by a 50 ms
wait. -/
lemma armLoop_eq_join (n : Nat) :
    armLoop n =
      List.flatten (List.replicate n
        [RampAction.cmd DriverCmd.throttleMinimum, RampAction.wait 50]) := by
  induction n with
  | zero => rfl
  | succ k ih => simp [armLoop, List.replicate_succ, ih]

/-- The direction loop is `n` copies of a reverse command followed by a 50 ms
wait. -/
lemma dirLoop_eq_join (rm : RevFlags) (n : Nat) :
    dirLoop rm n =
      List.flatten (List.replicate n
        [RampAction.cmd (DriverCmd.reverse rm), RampAction.wait 50]) := by
  induction n with
  | zero => rfl
  | succ k ih => simp [dirLoop, List.replicate_succ, ih]

/-- The commands of the minimum-throttle loop. -/
lemma armLoop_filter_cmd (n : Nat) :
    (armLoop n).filter RampAction.isCmd =
      List.replicate n (RampAction.cmd DriverCmd.throttleMinimum) := by
  induction n with
  | zero => rfl
  | succ k ih => simp [armLoop, List.replicate_succ, RampAction.isCmd, ih]

/-- The commands of the direction loop. -/
lemma dirLoop_filter_cmd (rm : RevFlags) (n : Nat) :
    (dirLoop rm n).filter RampAction.isCmd =
      List.replicate n (RampAction.cmd (DriverCmd.reverse rm)) := by
  induction n with
  | zero => rfl
  | succ k ih => simp [dirLoop, List.replicate_succ, RampAction.isCmd, ih]

/-- The waits of the minimum-throttle loop. -/
lemma armLoop_filter_wait (n : Nat) :
    (armLoop n).filter RampAction.isWait =
      List.replicate n (RampAction.wait 50) := by
  induction n with
  | zero => rfl
  | succ k ih => simp [armLoop, List.replicate_succ, RampAction.isWait, ih]

/-- The waits of the direction loop. -/
lemma dirLoop_filter_wait (rm : RevFlags) (n : Nat) :
    (dirLoop rm n).filter RampAction.isWait =
      List.replicate n (RampAction.wait 50) := by
  induction n with
  | zero => rfl
  | succ k ih => simp [dirLoop, List.replicate_succ, RampAction.isWait, ih]

/-- `totalWait` distributes over appending action lists. -/
lemma totalWait_append (a b : List RampAction) :
    totalWait (a ++ b) = totalWait a + totalWait b := by
  induction a with
  | nil => simp [totalWait]
  | cons x xs ih =>
      cases x
      · simp [totalWait, ih]
        ring
      · simp [totalWait, ih]

/-- Total wait of the minimum-throttle loop. -/
lemma totalWait_armLoop (n : Nat) : totalWait (armLoop n) = 50 * n := by
  induction n with
  | zero => rfl
  | succ k ih => simp [armLoop, totalWait, ih]; ring

/-- Total wait of the direction loop. -/
lemma totalWait_dirLoop (rm : RevFlags) (n : Nat) :
    totalWait (dirLoop rm n) = 50 * n := by
  induction n with
  | zero => rfl
  | succ k ih => simp [dirLoop, totalWait, ih]; ring

/-- The shape of the direction loop is independent of the configured flags. -/
lemma dirLoop_shape (rm rm2 : RevFlags) (n : Nat) :
    (dirLoop rm n).map rampShape = (dirLoop rm2 n).map rampShape := by
  induction n with
  | zero => rfl
  | succ k ih => simp [dirLoop, rampShape, ih]

/-- Claim C6: once `Arming` is entered the ramp is the fixed sequence —
a 500 ms wait, then exactly 50 minimum-throttle commands each followed by a
50 ms wait, then exactly 10 direction commands each followed by a 50 ms wait
— totalling 3500 ms of waits, with all minimum-throttle commands before all
direction commands, and with a shape independent of configuration; the ramp
consumes no input (in particular it never reads the blocker mask), so it can
be neither shortened nor reordered by any input. -/
theorem arming_ramp_fixed_sequence (rm : RevFlags) :
    armingRamp rm = RampAction.wait 500 ::
      (List.flatten (List.replicate 50
        [RampAction.cmd DriverCmd.throttleMinimum, RampAction.wait 50]) ++
       List.flatten (List.replicate 10
        [RampAction.cmd (DriverCmd.reverse rm), RampAction.wait 50]))
    ∧ (armingRamp rm).filter RampAction.isCmd =
        List.replicate 50 (RampAction.cmd DriverCmd.throttleMinimum) ++
        List.replicate 10 (RampAction.cmd (DriverCmd.reverse rm))
    ∧ (armingRamp rm).filter RampAction.isWait =
        RampAction.wait 500 :: List.replicate 60 (RampAction.wait 50)
    ∧ totalWait (armingRamp rm) = 3500
    ∧ (∀ rm2, (armingRamp rm).map rampShape = (armingRamp rm2).map rampShape) := by
  refine ⟨?_, ?_, ?_, ?_, ?_⟩
  · simp [armingRamp, armLoop_eq_join, dirLoop_eq_join]
  · simp [armingRamp, RampAction.isCmd, armLoop_filter_cmd, dirLoop_filter_cmd]
  · rw [show (60 : Nat) = 50 + 10 by norm_num, List.replicate_add]
    simp [armingRamp, RampAction.isWait, armLoop_filter_wait, dirLoop_filter_wait]
  · simp [armingRamp, totalWait, totalWait_append, totalWait_armLoop, totalWait_dirLoop]
  · intro rm2
    simp [armingRamp, rampShape, dirLoop_shape rm rm2]

/- ================================================================
   Claims about the attitude controller
   ================================================================ -/

/-- The zero 3-vector, used as a concrete measurement below. -/
def v3zero : V3 ℚ := ⟨0, 0, 0⟩

/-- A concrete PID state with a non-zero accumulated integral term. -/
def cexPid : Pid ℚ :=
  { kp := 0, ki := 1, kd := 0, cfgFlag := true, dt := 1
  , integral := 5, prevError := 0, filterState := 0
  , lpFilter := none, circular := none }

/-- A concrete six-controller state whose outer roll controller carries the
non-zero integral of `cexPid`. -/
def cexPids : AttPids ℚ :=
  { pitchOuter := Pid.new 1 1 0 true 1
  , pitchInner := Pid.new 1 1 0 true 1
  , rollOuter := cexPid
  , rollInner := Pid.new 1 1 0 true 1
  , yawOuter := Pid.new 1 1 0 true 1
  , yawInner := Pid.new 1 1 0 true 1 }

/-- Claim C7 counterexample: a cycle whose incoming mode changes kind
(Acro to Horizon) does not treat the PID state as freshly entered — with no
reset pending, the outer roll controller's accumulated integral 5 survives
into the cycle (becoming 5 + error·dt = 6, not 0), and from a freshly entered
(reset) state the same cycle would give 1; `same_variant_as` reports the kind
change but the loop never consults it. -/
theorem mode_kind_change_not_detected_cex :
    StabilizationMode.same_variant_as (StabilizationMode.Acro v3zero)
      (StabilizationMode.Horizon ⟨1, 0, 0⟩) = false
    ∧ (attitudeCycle ⟨StabilizationMode.Acro v3zero, cexPids⟩
        (some (StabilizationMode.Horizon ⟨1, 0, 0⟩)) none v3zero v3zero).1.pids.rollOuter.integral = 6
    ∧ (attitudeCycle ⟨StabilizationMode.Acro v3zero, applyReset cexPids⟩
        (some (StabilizationMode.Horizon ⟨1, 0, 0⟩)) none v3zero v3zero).1.pids.rollOuter.integral = 1
    ∧ (6 : ℚ) ≠ 0 := by
  refine ⟨rfl, ?_, ?_, by norm_num⟩ <;>
    norm_num [attitudeCycle, computeActuation, updateFromChannel, applyReset,
      Pid.update, Pid.wrapInput, Pid.reset_integral, Pid.new,
      cexPids, cexPid, v3zero, V3.sub_def]

/-- Claim C7 amended: each cycle refreshes the stabilization mode from its
channel, and `same_variant_as` is a discriminant-only comparison able to
distinguish a kind change from an in-kind setpoint update; but the control
loop itself performs no kind-change detection: the outcome of a cycle that
receives a new mode is independent of the previous mode (hence of whether the
kind changed), and PID state carries over unchanged into the new kind. -/
theorem mode_refresh_ignores_previous_kind (ps : AttPids ℚ)
    (m1 m2 newMode : StabilizationMode ℚ) (resetMsg : Option Bool) (a r : V3 ℚ) :
    attitudeCycle ⟨m1, ps⟩ (some newMode) resetMsg a r
      = attitudeCycle ⟨m2, ps⟩ (some newMode) resetMsg a r
    ∧ (∀ u v : V3 ℚ,
        StabilizationMode.same_variant_as (StabilizationMode.Horizon u)
          (StabilizationMode.Acro v) = false
        ∧ StabilizationMode.same_variant_as (StabilizationMode.Acro u)
          (StabilizationMode.Horizon v) = false
        ∧ StabilizationMode.same_variant_as (StabilizationMode.Horizon u)
          (StabilizationMode.Horizon v) = true
        ∧ StabilizationMode.same_variant_as (StabilizationMode.Acro u)
          (StabilizationMode.Acro v) = true) := by
  constructor
  · simp [attitudeCycle, updateFromChannel]
  · intro u v
    refine ⟨rfl, rfl, rfl, rfl⟩

/-- Claim C8: with the integrator-reset signal pending, the cycle zeroes the
accumulated integral term of all six controllers, and does so before any
actuation is computed — the cycle is identical to one starting from the
fully reset state with no reset pending; and an update with a (wrapped) zero
error from a zero integral leaves the integral at zero, contributing nothing
through the I gain. -/
theorem reset_zeroes_all_six_integrators (st : AttState ℚ)
    (modeMsg : Option (StabilizationMode ℚ)) (a r : V3 ℚ) :
    ((applyReset st.pids).pitchOuter.integral = 0
      ∧ (applyReset st.pids).pitchInner.integral = 0
      ∧ (applyReset st.pids).rollOuter.integral = 0
      ∧ (applyReset st.pids).rollInner.integral = 0
      ∧ (applyReset st.pids).yawOuter.integral = 0
      ∧ (applyReset st.pids).yawInner.integral = 0)
    ∧ attitudeCycle st modeMsg (some true) a r
        = attitudeCycle ⟨st.mode, applyReset st.pids⟩ modeMsg none a r
    ∧ (∀ p : Pid ℚ, p.integral = 0 → p.wrapInput 0 = 0 →
        (p.update 0).2.integral = 0 ∧ p.ki * (p.update 0).2.integral = 0) := by
  refine ⟨⟨rfl, rfl, rfl, rfl, rfl, rfl⟩, ?_, ?_⟩
  · simp [attitudeCycle]
  · intro p h1 h2
    simp [Pid.update, h1, h2]

/-- Claim C8 witness: the reset applied to the concrete state zeroes the
outer roll integral, and a zero-error update of a fresh controller keeps a
zero integral. -/
theorem reset_zeroes_all_six_integrators_witness :
    (applyReset cexPids).rollOuter.integral = 0
    ∧ ((Pid.new (1 : ℚ) 2 3 true 1).update 0).2.integral = 0 :=
  ⟨(reset_zeroes_all_six_integrators ⟨StabilizationMode.Acro v3zero, cexPids⟩
      none v3zero v3zero).1.2.2.1,
   ((reset_zeroes_all_six_integrators ⟨StabilizationMode.Acro v3zero, cexPids⟩
      none v3zero v3zero).2.2 (Pid.new 1 2 3 true 1) rfl rfl).1⟩

/-- Claim C10 counterexample: an Acro-mode cycle with a pending integrator
reset does change the outer controllers — the outer roll integral drops from
5 to 0 — so outer-loop state does not carry over unmodified across every
Acro cycle. -/
theorem acro_cycle_with_reset_touches_outer_cex :
    (attitudeCycle ⟨StabilizationMode.Acro v3zero, cexPids⟩ none (some true)
        v3zero v3zero).1.mode = StabilizationMode.Acro v3zero
    ∧ cexPids.rollOuter.integral = 5
    ∧ (attitudeCycle ⟨StabilizationMode.Acro v3zero, cexPids⟩ none (some true)
        v3zero v3zero).1.pids.rollOuter.integral = 0
    ∧ (0 : ℚ) ≠ 5 := by
  refine ⟨rfl, rfl, ?_, by norm_num⟩
  norm_num [attitudeCycle, computeActuation, updateFromChannel, applyReset,
    Pid.update, Pid.wrapInput, Pid.reset_integral, Pid.new,
    cexPids, cexPid, v3zero, V3.sub_def]

/-- Claim C10 amended: in every cycle whose effective mode is Acro and in
which no integrator reset is pending, only the three inner controllers are
updated — the outer pitch, roll and yaw controllers (integral, filter state
and all) are left completely unchanged, so outer-loop state carries over
across such cycles. -/
theorem acro_cycle_outer_pids_unchanged (st : AttState ℚ)
    (modeMsg : Option (StabilizationMode ℚ)) (resetMsg : Option Bool)
    (a r ref : V3 ℚ)
    (hmode : updateFromChannel modeMsg st.mode = StabilizationMode.Acro ref)
    (hreset : resetMsg ≠ some true) :
    (attitudeCycle st modeMsg resetMsg a r).1.pids.pitchOuter = st.pids.pitchOuter
    ∧ (attitudeCycle st modeMsg resetMsg a r).1.pids.rollOuter = st.pids.rollOuter
    ∧ (attitudeCycle st modeMsg resetMsg a r).1.pids.yawOuter = st.pids.yawOuter := by
  have hps : (match resetMsg with
      | some true => applyReset st.pids
      | _ => st.pids) = st.pids := by
    rcases resetMsg with _ | b
    · rfl
    · cases b
      · rfl
      · exact absurd rfl hreset
  refine ⟨?_, ?_, ?_⟩ <;>
    simp [attitudeCycle, hps, hmode, computeActuation]

/-- Claim C10 witness: a concrete Acro cycle with no reset pending leaves the
outer roll controller exactly as it was. -/
theorem acro_cycle_outer_pids_unchanged_witness :
    (attitudeCycle ⟨StabilizationMode.Acro v3zero, cexPids⟩ none none
      v3zero v3zero).1.pids.rollOuter = cexPids.rollOuter :=
  (acro_cycle_outer_pids_unchanged ⟨StabilizationMode.Acro v3zero, cexPids⟩
    none none v3zero v3zero v3zero rfl (by decide)).2.1

/- ================================================================
   Claim C9: yaw circular error
   ================================================================ -/

/-- Claim C9: the yaw controllers are configured with the circular domain
`[-π, π]` (source line 53), so for any setpoint and measurement in that
domain the error actually used by the PID is the wrapped difference: it lies
in `[-π, π]` and differs from the naive difference by an integer multiple of
`2π` (the signed shortest angular distance); in particular setpoint `π − 0.1`
against measurement `−π + 0.1` gives an error of magnitude exactly `1/5`,
not `2π − 1/5`. -/
theorem yaw_circular_error_shortest_path (dtv sp m : ℝ)
    (h1 : -Real.pi ≤ sp) (h2 : sp ≤ Real.pi)
    (h3 : -Real.pi ≤ m) (h4 : m ≤ Real.pi) :
    (-Real.pi ≤ (pidYawOuterInit Real.pi dtv).wrapInput (sp - m)
      ∧ (pidYawOuterInit Real.pi dtv).wrapInput (sp - m) ≤ Real.pi)
    ∧ (∃ k : ℤ, (pidYawOuterInit Real.pi dtv).wrapInput (sp - m)
        = (sp - m) + 2 * Real.pi * k)
    ∧ |(pidYawOuterInit Real.pi dtv).wrapInput
        ((Real.pi - 1/10) - (-Real.pi + 1/10))| = 1/5 := by
  have hpi : (0 : ℝ) < Real.pi := Real.pi_pos
  have hpi3 : (3 : ℝ) < Real.pi := Real.pi_gt_three
  have hwrap : ∀ e : ℝ, (pidYawOuterInit Real.pi dtv).wrapInput e
      = wrapError (-Real.pi) Real.pi e := by
    intro e
    rfl
  refine ⟨?_, ?_, ?_⟩
  · rw [hwrap]
    unfold wrapError
    split_ifs with hA hB
    · constructor <;> linarith
    · constructor <;> linarith
    · constructor <;> linarith
  · rw [hwrap]
    unfold wrapError
    split_ifs with hA hB
    · exact ⟨-1, by push_cast; ring⟩
    · exact ⟨1, by push_cast; ring⟩
    · exact ⟨0, by push_cast; ring⟩
  · rw [hwrap]
    have he : (Real.pi - 1/10) - (-Real.pi + 1/10) = 2 * Real.pi - 1/5 := by ring
    rw [he]
    unfold wrapError
    rw [if_pos (by linarith)]
    have hv : 2 * Real.pi - 1/5 - (Real.pi - -Real.pi) = -(1/5) := by ring
    rw [hv, abs_neg, abs_of_nonneg (by norm_num)]

/-- Claim C9 witness: at setpoint `π − 1/10` and measurement `−π + 1/10`,
both inside `[-π, π]`, the wrapped yaw error has magnitude `1/5`. -/
theorem yaw_circular_error_shortest_path_witness :
    -Real.pi ≤ Real.pi - 1/10
    ∧ |(pidYawOuterInit Real.pi 1).wrapInput
        ((Real.pi - 1/10) - (-Real.pi + 1/10))| = 1/5 :=
  ⟨by linarith [Real.pi_gt_three],
   (yaw_circular_error_shortest_path 1 (Real.pi - 1/10) (-Real.pi + 1/10)
     (by linarith [Real.pi_gt_three]) (by linarith [Real.pi_gt_three])
     (by linarith [Real.pi_gt_three]) (by linarith [Real.pi_gt_three])).2.2⟩
